import Mathlib

/-!
Verification of the Order & Position Execution Gateway of the
zup-terminal-backend repository.

The definitions below are a shallow embedding of the TypeScript source:
* `src/routes/orders.ts`   — volume translation, pending-order modify,
  the 10012 acceptance quirk;
* `src/routes/positions.ts` — listing (three parallel fetches and the
  closed-trade validity filter), single-position close fallback chain,
  close-all aggregation;
* `src/lib/tokenCache.ts`  — the in-memory session-token cache.

Numbers are modelled as `ℚ` (JSON numbers are finite decimals), JavaScript
`Math.round` and `Number.prototype.toFixed` as rounding on `ℚ`, optional /
nullish JSON fields as `Option`, and the JS `??` and `||` operators as the
corresponding chains on `Option` (with `||` additionally skipping falsy
values such as `0` and `""`).
-/

namespace ZupGateway

/-- JavaScript `Math.round`: round half toward positive infinity. -/
def jsRound (x : ℚ) : ℤ := ⌊x + (1 : ℚ)/2⌋

/-- JavaScript `x.toFixed(d)` read back as a number: round to `d` decimal
places (ECMA-262 picks the larger candidate on a tie, i.e. half-up). -/
def jsToFixed (d : ℕ) (x : ℚ) : ℚ :=
  (⌊x * (10 : ℚ)^d + 1/2⌋ : ℚ) / (10 : ℚ)^d

/-- Does the list start with the given pattern? -/
def listStartsWith : List Char → List Char → Bool
  | _, [] => true
  | [], _ :: _ => false
  | a :: as, b :: bs => a == b && listStartsWith as bs

/-- Does the list contain the pattern as a contiguous subsequence?
Models JavaScript `String.prototype.includes`. -/
def listContainsSeq : List Char → List Char → Bool
  | [], pat => pat.isEmpty
  | a :: rest, pat => listStartsWith (a :: rest) pat || listContainsSeq rest pat

/-- JavaScript `s.includes(pat)` on strings. -/
def strIncludes (s pat : String) : Bool := listContainsSeq s.data pat.data

/-- JavaScript `s.toUpperCase()` (ASCII symbols only appear here). -/
def strUpper (s : String) : String := ⟨s.data.map Char.toUpper⟩

/-- The crypto test used by `getPendingOrderVolume` in `orders.ts`:
`sym.includes('BTC') || sym.includes('ETH')` on the upper-cased symbol. -/
def isCryptoSymbol (symbol : String) : Bool :=
  let sym := strUpper symbol
  strIncludes sym "BTC" || strIncludes sym "ETH"

/-- `getPendingOrderVolume` from `src/routes/orders.ts` lines 18–26:
crypto symbols get `Math.round(volume * 100)`, all others get
`Number((volume / 10).toFixed(4))`. -/
def getPendingOrderVolume (symbol : String) (volume : ℚ) : ℚ :=
  if isCryptoSymbol symbol then (jsRound (volume * 100) : ℚ)
  else jsToFixed 4 (volume / 10)

/-- Market-order volume from `src/routes/orders.ts` line 138:
`Math.round(parseFloat(volume) * 100)` for every symbol. -/
def marketVolumeInUnits (volume : ℚ) : ℤ := jsRound (volume * 100)

/-! ## Token cache (`src/lib/tokenCache.ts`) -/

/-- One cache entry: token string and absolute expiry in ms. -/
structure TokenEntry where
  token : String
  expiresAt : ℤ
deriving Repr, DecidableEq

/-- Association-list model of the `Map<string, {token, expiresAt}>`:
lookup of the first binding for the key. -/
def mapGet : List (String × TokenEntry) → String → Option TokenEntry
  | [], _ => none
  | p :: m, k => if p.1 = k then some p.2 else mapGet m k

/-- `Map.set`: replace the binding in place, or append a new one
(JS `Map` keeps insertion order and holds one binding per key). -/
def mapSet : List (String × TokenEntry) → String → TokenEntry →
    List (String × TokenEntry)
  | [], k, v => [(k, v)]
  | p :: m, k, v => if p.1 = k then (k, v) :: m else p :: mapSet m k v

/-- `Map.delete`. -/
def mapDelete (m : List (String × TokenEntry)) (k : String) :
    List (String × TokenEntry) :=
  m.filter (fun p => !(decide (p.1 = k)))

/-- The `TokenCache` object's state. -/
structure TokenCache where
  cache : List (String × TokenEntry)
deriving Repr, DecidableEq

/-- `TokenCache.get` from `src/lib/tokenCache.ts`: return the token while
`Date.now() < expiresAt - 120000`; otherwise delete the entry and return
`null`. `now` is passed explicitly. Returns the result and the new state. -/
def TokenCache.get (c : TokenCache) (accountId : String) (now : ℤ) :
    Option String × TokenCache :=
  match mapGet c.cache accountId with
  | none => (none, c)
  | some e =>
    if now < e.expiresAt - 120000 then (some e.token, c)
    else (none, ⟨mapDelete c.cache accountId⟩)

/-- `TokenCache.set`: store the token with
`expiresAt = Date.now() + ttlSeconds * 1000`, `ttlSeconds` defaulting
to 3600. -/
def TokenCache.set (c : TokenCache) (accountId token : String) (now : ℤ)
    (ttlSeconds : ℤ := 3600) : TokenCache :=
  ⟨mapSet c.cache accountId ⟨token, now + ttlSeconds * 1000⟩⟩

/-! ## HTTP model -/

/-- Outcome of one JavaScript `fetch` call: the promise rejects (network
error, or an `AbortController` timeout), or resolves to a response with an
HTTP status code and a body of type `β`. -/
inductive FetchOutcome (β : Type) where
  | rejected (message : String)
  | resp (status : ℕ) (body : β)
deriving Repr, DecidableEq

/-- JavaScript `Response.ok`: status in the inclusive range 200–299. -/
def httpOk (status : ℕ) : Bool := 200 ≤ status && status ≤ 299

/-- JS nullish coalescing `a ?? b` on optional values: only `null` /
`undefined` fall through (a present `0` or `""` does not). -/
def nullishOr {α : Type} (a b : Option α) : Option α :=
  match a with
  | some x => some x
  | none => b

/-- JS `a || b` on optional numbers: `null`, `undefined` and `0` all fall
through to `b`. -/
def jsOrNum (a b : Option ℚ) : Option ℚ :=
  match a with
  | some x => if x = 0 then b else some x
  | none => b

/-- JS `a || b` on optional strings: `null`, `undefined` and `""` all fall
through to `b`. -/
def jsOrStr (a b : Option String) : Option String :=
  match a with
  | some s => if s = "" then b else some s
  | none => b

/-- JS `String.prototype.trim` (ASCII whitespace suffices here). -/
def isSpaceChar (c : Char) : Bool := c == ' ' || c == '\t' || c == '\n' || c == '\r'

/-- Trim leading and trailing whitespace from a character list. -/
def listTrim (l : List Char) : List Char :=
  (((l.dropWhile isSpaceChar).reverse).dropWhile isSpaceChar).reverse

/-- JS `s.trim()`. -/
def strTrim (s : String) : String := ⟨listTrim s.data⟩

/-! ## Trade-placement response handling (`src/routes/orders.ts`) -/

/-- The parsed placement response body, restricted to the fields the code
reads for the acceptance decision: `returnCode` / `ReturnCode`. -/
structure OrderRespBody where
  returnCode : Option ℤ
  ReturnCode : Option ℤ
deriving Repr, DecidableEq

/-- `orderData?.returnCode || orderData?.ReturnCode` (JS `||`: a present
`0` in `returnCode` falls through to `ReturnCode`). -/
def extractedReturnCode (b : OrderRespBody) : Option ℤ :=
  match b.returnCode with
  | some c => if c = 0 then b.ReturnCode else some c
  | none => b.ReturnCode

/-- What the gateway reports for a placement call. -/
inductive PlaceResult where
  /-- `success: true, status: 'placed'` — the 10012 quirk path. -/
  | placedQuirk
  /-- `success: true` — plain HTTP-ok path. -/
  | success
  /-- `success: false`, mirrored upstream status. -/
  | error (status : ℕ)
deriving Repr, DecidableEq

/-- Market-order response handling, `orders.ts` lines 173–213.  `body` is
`none` when the response body was empty or not parseable as JSON (no
return-code fields are then available). -/
def marketOrderResult (status : ℕ) (body : Option OrderRespBody) : PlaceResult :=
  if httpOk status then .success
  else
    match body with
    | some b => if extractedReturnCode b = some 10012 then .placedQuirk else .error status
    | none => .error status

/-- Pending-order response handling, `orders.ts` lines 413–489: an empty
body with an ok status returns success, otherwise the same
10012-or-error decision as the market path. -/
def pendingOrderResult (status : ℕ) (body : Option OrderRespBody) : PlaceResult :=
  match body with
  | none => if httpOk status then .success else .error status
  | some b =>
    if httpOk status then .success
    else if extractedReturnCode b = some 10012 then .placedQuirk else .error status

/-! ## Pending-order modify (`src/routes/orders.ts` lines 606–661) -/

/-- The modify payload sent upstream — capitalized field names, optional
fields included only when present in the request. -/
structure ModifyPayload where
  OrderId : ℤ
  Price : Option ℚ
  Volume : Option ℚ
  TakeProfit : Option ℚ
  StopLoss : Option ℚ
deriving Repr, DecidableEq

/-- An HTTP attempt made by the gateway: method and full URL. -/
structure HttpAttempt where
  method : String
  url : String
deriving Repr, DecidableEq

/-- The single upstream attempt the modify route makes:
`PUT {base}/client/Orders/ModifyPendingOrder`. -/
def modifyPendingAttempts (base : String) : List HttpAttempt :=
  [⟨"PUT", base ++ "/client/Orders/ModifyPendingOrder"⟩]

/-- Modify-route outcome: `(reported success, attempts made)` as a function
of the one upstream response.  There is no fallback request: the attempt
list does not depend on the outcome. -/
def modifyPendingOrder {β : Type} (base : String) (_payload : ModifyPayload)
    (outcome : FetchOutcome β) : Bool × List HttpAttempt :=
  (match outcome with
   | .rejected _ => false
   | .resp s _ => httpOk s,
   modifyPendingAttempts base)

/-! ## Single-position close chain (`src/routes/positions.ts` lines 829–897) -/

/-- Response-body flags that could signal an explicit failure
(`success: false` / `Success: false`).  The close routes receive such
bodies but never parse them — only `response.ok` and `status === 204`
are consulted. -/
structure CloseBody where
  success : Option Bool
  Success : Option Bool
deriving Repr, DecidableEq

/-- The acceptance check the close code actually applies to an attempt:
`closeResponse.ok || closeResponse.status === 204`.  The body is ignored. -/
def closeAccepted : FetchOutcome (Option CloseBody) → Bool
  | .rejected _ => false
  | .resp s _ => httpOk s || s == 204

/-- The acceptance criterion in the spec's words (for comparison):
HTTP ok or 204, AND a present JSON body must not assert
`success: false` / `Success: false`. -/
def closeAcceptedSpec : FetchOutcome (Option CloseBody) → Bool
  | .rejected _ => false
  | .resp s body =>
    (httpOk s || s == 204) &&
      (match body with
       | some b => !(b.success == some false || b.Success == some false)
       | none => true)

/-- `POST /:positionId/close`: `(reported success, attempts made)`.
Primary: `DELETE {base}/client/position/{id}` (optional `?volume=` query
elided from the URL model; `hasVolume` still gates the fallback payload).
Only primary statuses 415 and 405 trigger the one fallback,
`POST {base}/client/position/close` with body `{positionId, volume?}`;
any other failure (including a rejected fetch, which the route's `catch`
turns into a 500) returns without further attempts. -/
def closeSingle (base : String) (positionId : ℕ) (_volume : Option ℚ)
    (primary fb1 : FetchOutcome (Option CloseBody)) : Bool × List HttpAttempt :=
  let primaryAttempt : HttpAttempt :=
    ⟨"DELETE", base ++ "/client/position/" ++ Nat.repr positionId⟩
  let fb1Attempt : HttpAttempt := ⟨"POST", base ++ "/client/position/close"⟩
  match primary with
  | .rejected _ => (false, [primaryAttempt])
  | .resp s _ =>
    if httpOk s || s == 204 then (true, [primaryAttempt])
    else if s == 415 || s == 405 then
      match fb1 with
      | .rejected _ => (false, [primaryAttempt, fb1Attempt])
      | .resp s2 _ =>
        if httpOk s2 || s2 == 204 then (true, [primaryAttempt, fb1Attempt])
        else (false, [primaryAttempt, fb1Attempt])
    else (false, [primaryAttempt])

/-- The fallback trigger of the single-close route:
`primaryResponse.status === 415 || primaryResponse.status === 405`. -/
def primaryRetryable : FetchOutcome (Option CloseBody) → Bool
  | .rejected _ => false
  | .resp s _ => s == 415 || s == 405

/-- The body of the one close fallback request,
`{ positionId, volume? }` — lower-camel field names; `volume` included
only when present and positive (`hasVolume`). -/
def closeFb1Payload (positionId : ℕ) (volume : Option ℚ) : List (String × ℚ) :=
  ("positionId", (positionId : ℚ)) ::
    (match volume with
     | some v => if 0 < v then [("volume", v)] else []
     | none => [])

/-! ## Close-all (`src/routes/positions.ts` lines 547–731) -/

/-- A raw position record, restricted to the fields the close-all route
reads to find a position identifier. -/
structure PosRec where
  PositionId : Option ℚ
  positionId : Option ℚ
  Id : Option ℚ
  id : Option ℚ
deriving Repr, DecidableEq

/-- `pos.PositionId || pos.positionId || pos.Id || pos.id` (JS `||`:
a present `0` falls through). -/
def extractPositionId (p : PosRec) : Option ℚ :=
  jsOrNum p.PositionId (jsOrNum p.positionId (jsOrNum p.Id p.id))

/-- `if (!positionId)`: the extracted identifier is falsy when it is
absent or `0`. -/
def positionIdFalsy (o : Option ℚ) : Bool :=
  match o with
  | none => true
  | some x => decide (x = 0)

/-- The two upstream responses one close-all sub-operation can consume:
the `DELETE` primary and the unconditional `POST /client/position/close`
fallback.  Bodies carry the response text used for error messages. -/
structure CloseAllEnv where
  primary : FetchOutcome String
  fallback : FetchOutcome String
deriving Repr, DecidableEq

/-- What one close-all sub-operation resolves to
(`{success, positionId, error?}`). -/
structure CloseOneOutcome where
  success : Bool
  positionId : Option ℚ
  error : Option String
deriving Repr, DecidableEq

/-- One position's close attempt inside close-all: no identifiable id
fails immediately with `'No position ID'`; otherwise `DELETE`, then on any
non-accepted status the `POST` fallback; a rejected fetch is caught and
reported as a failure with the error message. -/
def closeOne (p : PosRec) (env : CloseAllEnv) : CloseOneOutcome :=
  let pid := extractPositionId p
  if positionIdFalsy pid then ⟨false, none, some "No position ID"⟩
  else
    match env.primary with
    | .rejected msg => ⟨false, pid, some msg⟩
    | .resp s _ =>
      if httpOk s || s == 204 then ⟨true, pid, none⟩
      else
        match env.fallback with
        | .rejected msg => ⟨false, pid, some msg⟩
        | .resp s2 text =>
          if httpOk s2 || s2 == 204 then ⟨true, pid, none⟩
          else ⟨false, pid, some (if text = "" then "Failed to close" else text)⟩

/-- The close-all route's reply to the caller. -/
structure CloseAllResponse where
  httpStatus : ℕ
  success : Bool
  closed : ℕ
  failed : ℕ
  /-- `data.total`; absent on the empty-positions short-circuit. -/
  total : Option ℕ
deriving Repr, DecidableEq

/-- `POST /close-all` after the positions listing succeeded: run one close
per listed position (concurrently via `Promise.allSettled`; each
sub-operation is modelled by its index's `CloseAllEnv`), then aggregate.
All sub-promises fulfil, so `closed` counts the successes and
`failed = results.length - closed`.  The reply is always HTTP 200 with
`success: true`. -/
def closeAll (positions : List PosRec) (env : ℕ → CloseAllEnv) : CloseAllResponse :=
  if positions.isEmpty then ⟨200, true, 0, 0, none⟩
  else
    let results := positions.enum.map (fun pe => closeOne pe.2 (env pe.1))
    let closed := results.countP (fun r => r.success)
    ⟨200, true, closed, results.length - closed, some positions.length⟩

/-! ## Closed-trade validity filter (`src/routes/positions.ts`) -/

/-- A raw trade record from the trade-history endpoint, restricted to the
fields the filters read.  Numeric JSON fields are `Option ℚ` (absent =
`undefined`/`null`), string fields `Option String`. -/
structure TradeRec where
  OrderId : Option ℚ
  orderId : Option ℚ
  DealId : Option ℚ
  dealId : Option ℚ
  Symbol : Option String
  symbol : Option String
  Price : Option ℚ
  price : Option ℚ
  ClosePrice : Option ℚ
  closePrice : Option ℚ
  PriceClose : Option ℚ
  priceClose : Option ℚ
  OpenPrice : Option ℚ
  openPrice : Option ℚ
  VolumeLots : Option ℚ
  volumeLots : Option ℚ
  Volume : Option ℚ
  volume : Option ℚ
  Profit : Option ℚ
  profit : Option ℚ
  PnL : Option ℚ
  pnl : Option ℚ
deriving Repr, DecidableEq

/-- An empty record: all fields absent. -/
def TradeRec.empty : TradeRec :=
  ⟨none, none, none, none, none, none, none, none, none, none, none,
   none, none, none, none, none, none, none, none, none, none, none⟩

/-- `trade.OrderId ?? trade.orderId ?? trade.DealId ?? trade.dealId ?? 0`:
nullish chain — a present `0` stops the chain. -/
def tradeIdResolved (t : TradeRec) : ℚ :=
  (nullishOr t.OrderId (nullishOr t.orderId (nullishOr t.DealId t.dealId))).getD 0

/-- `(trade.Symbol || trade.symbol || '').trim()`. -/
def tradeSymbolResolved (t : TradeRec) : String :=
  strTrim ((jsOrStr t.Symbol t.symbol).getD "")

/-- The price chain of the full filter (lines 489–513), ending in
`OpenPrice ?? openPrice ?? 0`. -/
def tradePriceResolved (t : TradeRec) : ℚ :=
  (nullishOr t.Price (nullishOr t.price (nullishOr t.ClosePrice
    (nullishOr t.closePrice (nullishOr t.PriceClose
    (nullishOr t.priceClose (nullishOr t.OpenPrice t.openPrice))))))).getD 0

/-- The shorter price chain of the listing-route filter (lines 227–239):
no `OpenPrice` fallback. -/
def tradePriceResolvedShort (t : TradeRec) : ℚ :=
  (nullishOr t.Price (nullishOr t.price (nullishOr t.ClosePrice
    (nullishOr t.closePrice (nullishOr t.PriceClose t.priceClose))))).getD 0

/-- `trade.VolumeLots ?? trade.volumeLots ?? trade.Volume ?? trade.volume ?? 0`. -/
def tradeVolumeResolved (t : TradeRec) : ℚ :=
  (nullishOr t.VolumeLots (nullishOr t.volumeLots (nullishOr t.Volume t.volume))).getD 0

/-- `trade.Profit ?? trade.profit ?? trade.PnL ?? trade.pnl ?? 0`. -/
def tradeProfitResolved (t : TradeRec) : ℚ :=
  (nullishOr t.Profit (nullishOr t.profit (nullishOr t.PnL t.pnl))).getD 0

/-- The zero-profit pre-filter of the listing route (lines 212–219):
`Number.isFinite(n) && n !== 0` (finiteness is automatic for JSON
numbers, modelled in `ℚ`). -/
def tradeProfitNonzero (t : TradeRec) : Bool :=
  decide (tradeProfitResolved t ≠ 0)

/-- The full closed-trade validity filter of `GET /:accountId`
(lines 489–513): identifier, symbol, price and volume checks plus the
non-zero-profit check (`!isNaN` is vacuous in the `ℚ` model). -/
def closedTradeValid (t : TradeRec) : Bool :=
  decide (0 < tradeIdResolved t) &&
  decide (tradeSymbolResolved t ≠ "") &&
  decide (0 < tradePriceResolved t) &&
  decide (0 < tradeVolumeResolved t) &&
  decide (tradeProfitResolved t ≠ 0)

/-- The listing-route validity filter (lines 227–239): same identifier,
symbol and volume checks, the shorter price chain, and no profit
conjunct (that route applies `tradeProfitNonzero` separately,
gated by `TRADE_HISTORY_FILTER_ZERO_PROFIT`). -/
def closedTradeValidShort (t : TradeRec) : Bool :=
  decide (0 < tradeIdResolved t) &&
  decide (tradeSymbolResolved t ≠ "") &&
  decide (0 < tradePriceResolvedShort t) &&
  decide (0 < tradeVolumeResolved t)

/-- The identifier clause in the spec's words: the order identifier, *or
failing that* the deal identifier, resolves to a number > 0. -/
def closedTradeValidSpec (t : TradeRec) : Bool :=
  (decide (0 < (nullishOr t.OrderId t.orderId).getD 0) ||
   decide (0 < (nullishOr t.DealId t.dealId).getD 0)) &&
  decide (tradeSymbolResolved t ≠ "") &&
  decide (0 < tradePriceResolved t) &&
  decide (0 < tradeVolumeResolved t) &&
  decide (tradeProfitResolved t ≠ 0)

/-! ## Listing (`src/routes/positions.ts` lines 158–271) -/

/-- Response envelope for the open-positions fetch:
`positionsData?.positions || Positions || data || Data || []`
(an empty array is truthy in JS, so a present `[]` wins). -/
structure PositionsEnvelope (α : Type) where
  positions : Option (List α)
  Positions : Option (List α)
  data : Option (List α)
  Data : Option (List α)
deriving Repr, DecidableEq

/-- Unwrap the open-positions envelope. -/
def unwrapPositions {α : Type} (e : PositionsEnvelope α) : List α :=
  (nullishOr e.positions (nullishOr e.Positions (nullishOr e.data e.Data))).getD []

/-- Response envelope for the pending-orders fetch:
`pendingData?.orders || Orders || data || Data || []`. -/
structure OrdersEnvelope (α : Type) where
  orders : Option (List α)
  Orders : Option (List α)
  data : Option (List α)
  Data : Option (List α)
deriving Repr, DecidableEq

/-- Unwrap the pending-orders envelope. -/
def unwrapOrders {α : Type} (e : OrdersEnvelope α) : List α :=
  (nullishOr e.orders (nullishOr e.Orders (nullishOr e.data e.Data))).getD []

/-- Envelope candidates for the trade-history response, in the order the
code tries them. -/
structure TradesEnvelope where
  Items : Option (List TradeRec)
  Data : Option (List TradeRec)
  data : Option (List TradeRec)
  trades : Option (List TradeRec)
  Trades : Option (List TradeRec)
  items : Option (List TradeRec)
  results : Option (List TradeRec)
  Results : Option (List TradeRec)
  closedTrades : Option (List TradeRec)
  ClosedTrades : Option (List TradeRec)
  tradeHistory : Option (List TradeRec)
  TradeHistory : Option (List TradeRec)
deriving Repr, DecidableEq

/-- The trade-history body: a bare array, an object envelope, or
something else entirely (neither array nor object). -/
inductive TradeHistoryBody where
  | arr (trades : List TradeRec)
  | obj (e : TradesEnvelope)
  | nonObject
deriving Repr, DecidableEq

/-- Extract `allTrades` from the trade-history body (lines 192–203). -/
def unwrapTrades : TradeHistoryBody → List TradeRec
  | .arr l => l
  | .obj e =>
    (nullishOr e.Items (nullishOr e.Data (nullishOr e.data (nullishOr e.trades
      (nullishOr e.Trades (nullishOr e.items (nullishOr e.results
      (nullishOr e.Results (nullishOr e.closedTrades (nullishOr e.ClosedTrades
      (nullishOr e.tradeHistory e.TradeHistory))))))))))).getD []
  | .nonObject => []

/-- One category's processing under `Promise.allSettled` (lines 166–184):
the list is extracted only when the fetch fulfilled with an ok status;
a rejected fetch or error status leaves the category's array empty. -/
def processCategory {β α : Type} (r : FetchOutcome β) (unwrap : β → List α) : List α :=
  match r with
  | .rejected _ => []
  | .resp s body => if httpOk s then unwrap body else []

/-- The closed-positions pipeline (lines 186–254): unwrap, optionally drop
zero-profit trades (`TRADE_HISTORY_FILTER_ZERO_PROFIT !== 'false'`,
default on), then the validity filter. -/
def closedPipeline (filterZeroProfit : Bool) (b : TradeHistoryBody) : List TradeRec :=
  let allTrades := unwrapTrades b
  let filtered := if filterZeroProfit then allTrades.filter tradeProfitNonzero else allTrades
  filtered.filter closedTradeValidShort

/-- What `GET /:accountId` replies once the three fetches have settled. -/
@[ext]
structure ListingResponse (α : Type) where
  httpStatus : ℕ
  success : Bool
  positions : List α
  pendingOrders : List α
  closedPositions : List TradeRec
deriving Repr, DecidableEq

/-- The listing route after login: the three fetches are passed to
`Promise.allSettled` together and each category is computed from its own
outcome alone; the reply is always HTTP 200 with `success: true`. -/
def listingResult {α : Type} (posRes : FetchOutcome (PositionsEnvelope α))
    (pendRes : FetchOutcome (OrdersEnvelope α))
    (closedRes : FetchOutcome TradeHistoryBody)
    (filterZeroProfit : Bool) : ListingResponse α :=
  { httpStatus := 200
    success := true
    positions := processCategory posRes unwrapPositions
    pendingOrders := processCategory pendRes unwrapOrders
    closedPositions := processCategory closedRes (closedPipeline filterZeroProfit) }

/-- The full-filter variant of the closed-positions pipeline, as in the
second listing variant (lines 489–513): a single filter pass with
`closedTradeValid`. -/
def closedPositionsFull (b : TradeHistoryBody) : List TradeRec :=
  (unwrapTrades b).filter closedTradeValid

/-! ## Helper lemmas -/

/-- Looking up a key right after setting it yields the new entry. -/
theorem mapGet_mapSet_self (m : List (String × TokenEntry)) (k : String) (v : TokenEntry) :
    mapGet (mapSet m k v) k = some v := by
  induction m with
  | nil => simp [mapGet, mapSet]
  | cons p m ih =>
    by_cases h : p.1 = k
    · simp [mapGet, mapSet, h]
    · simp [mapGet, mapSet, h, ih]

/-- Deleting a key removes every binding for it. -/
theorem mapGet_mapDelete_self (m : List (String × TokenEntry)) (k : String) :
    mapGet (mapDelete m k) k = none := by
  induction m with
  | nil => simp [mapGet, mapDelete]
  | cons p m ih =>
    by_cases h : p.1 = k
    · simpa [mapDelete, h] using ih
    · simpa [mapDelete, mapGet, h] using ih

/-! ## Claims -/

/-- C1: for every market order the upstream volume is `round(lots * 100)`
regardless of symbol; for every pending order a crypto symbol gets
`round(lots * 100)` and every other symbol `round(lots / 10)` to 4 decimal
places — anchored at 0.01 lots: 1 unit for a market order or a BTCUSD
pending order, 0.001 for a EURUSD pending order. -/
theorem C1_volume_translation (s : String) (v : ℚ) :
    marketVolumeInUnits v = jsRound (v * 100) ∧
    getPendingOrderVolume s v =
      (if isCryptoSymbol s then (jsRound (v * 100) : ℚ) else jsToFixed 4 (v / 10)) ∧
    marketVolumeInUnits (1/100) = 1 ∧
    getPendingOrderVolume "BTCUSD" (1/100) = 1 ∧
    getPendingOrderVolume "EURUSD" (1/100) = 1/1000 := by
  refine ⟨rfl, rfl, ?_, ?_, ?_⟩
  · simp [marketVolumeInUnits, jsRound]
    norm_num
  · have h : isCryptoSymbol "BTCUSD" = true := by decide
    simp [getPendingOrderVolume, h, jsRound]
    norm_num
  · have h : isCryptoSymbol "EURUSD" = false := by decide
    simp [getPendingOrderVolume, h, jsToFixed]
    norm_num

/-- C10: a symbol is classified as crypto for the pending-order volume
rule exactly when its upper-cased name contains `BTC` or `ETH`; the check
is case-insensitive (`btcusd` counts), and other crypto tickers such as
XRP or SOL fall to the non-crypto rule `round(lots / 10)` to 4 decimals. -/
theorem C10_crypto_classification (s : String) (v : ℚ) :
    isCryptoSymbol s =
      (strIncludes (strUpper s) "BTC" || strIncludes (strUpper s) "ETH") ∧
    isCryptoSymbol "btcusd" = true ∧
    isCryptoSymbol "ethusd" = true ∧
    isCryptoSymbol "XRPUSD" = false ∧
    isCryptoSymbol "SOLUSD" = false ∧
    getPendingOrderVolume "btcusd" v = (jsRound (v * 100) : ℚ) ∧
    getPendingOrderVolume "XRPUSD" v = jsToFixed 4 (v / 10) ∧
    getPendingOrderVolume "SOLUSD" v = jsToFixed 4 (v / 10) := by
  refine ⟨rfl, by decide, by decide, by decide, by decide, ?_, ?_, ?_⟩
  · have h : isCryptoSymbol "btcusd" = true := by decide
    simp [getPendingOrderVolume, h]
  · have h : isCryptoSymbol "XRPUSD" = false := by decide
    simp [getPendingOrderVolume, h]
  · have h : isCryptoSymbol "SOLUSD" = false := by decide
    simp [getPendingOrderVolume, h]

/-- C4: `get(accountId)` returns the stored token exactly when
`now < expiresAt - 120000`; at or after that boundary it returns absent
and deletes the entry (afterwards the key no longer resolves), a missing
entry returns absent, and `set` stores `expiresAt = now + ttlSeconds *
1000` with `ttlSeconds` defaulting to 3600. -/
theorem C4_token_cache (c : TokenCache) (a tok : String) (now ttl : ℤ) :
    (∀ e, mapGet c.cache a = some e → now < e.expiresAt - 120000 →
      TokenCache.get c a now = (some e.token, c)) ∧
    (∀ e, mapGet c.cache a = some e → ¬ now < e.expiresAt - 120000 →
      TokenCache.get c a now = (none, ⟨mapDelete c.cache a⟩) ∧
        mapGet (TokenCache.get c a now).2.cache a = none) ∧
    (mapGet c.cache a = none → TokenCache.get c a now = (none, c)) ∧
    mapGet (TokenCache.set c a tok now ttl).cache a = some ⟨tok, now + ttl * 1000⟩ ∧
    TokenCache.set c a tok now = TokenCache.set c a tok now 3600 := by
  refine ⟨?_, ?_, ?_, ?_, rfl⟩
  · intro e he hlt
    simp [TokenCache.get, he, hlt]
  · intro e he hge
    constructor
    · simp [TokenCache.get, he, hge]
    · simp [TokenCache.get, he, hge, mapGet_mapDelete_self]
  · intro hnone
    simp [TokenCache.get, hnone]
  · exact mapGet_mapSet_self c.cache a ⟨tok, now + ttl * 1000⟩

/-- Witness for C4 at a concrete cache: a fresh token is returned, at the
120-second boundary the token is withheld and the entry evicted, and a
`set` without explicit TTL stores a one-hour expiry. -/
theorem C4_token_cache_witness :
    TokenCache.get ⟨[("acc7", ⟨"tokA", 1000000⟩)]⟩ "acc7" 879999 =
      (some "tokA", ⟨[("acc7", ⟨"tokA", 1000000⟩)]⟩) ∧
    TokenCache.get ⟨[("acc7", ⟨"tokA", 1000000⟩)]⟩ "acc7" 880000 = (none, ⟨[]⟩) ∧
    mapGet (TokenCache.set ⟨[]⟩ "acc7" "tokB" 5).cache "acc7" =
      some ⟨"tokB", 5 + 3600 * 1000⟩ := by
  have h1 := C4_token_cache ⟨[("acc7", ⟨"tokA", 1000000⟩)]⟩ "acc7" "tokA" 879999 3600
  have h2 := C4_token_cache ⟨[("acc7", ⟨"tokA", 1000000⟩)]⟩ "acc7" "tokA" 880000 3600
  have h3 := C4_token_cache ⟨[]⟩ "acc7" "tokB" 5 3600
  refine ⟨h1.1 ⟨"tokA", 1000000⟩ (by decide) (by decide), ?_, ?_⟩
  · have := (h2.2.1 ⟨"tokA", 1000000⟩ (by decide) (by decide)).1
    simpa [mapDelete] using this
  · have := h3.2.2.2.1
    simpa using this

/-- C5: for both trade-placement calls (market and pending), a non-2xx
HTTP status whose parsed body carries return code 10012 (under
`returnCode` or `ReturnCode`) is reported as a success with status
`placed` rather than as an error. -/
theorem C5_return_code_10012 (status : ℕ) (b : OrderRespBody)
    (hstatus : httpOk status = false)
    (hcode : extractedReturnCode b = some 10012) :
    marketOrderResult status (some b) = .placedQuirk ∧
    pendingOrderResult status (some b) = .placedQuirk := by
  constructor
  · simp [marketOrderResult, hstatus, hcode]
  · simp [pendingOrderResult, hstatus, hcode]

/-- Witness for C5: HTTP 400 with body `{returnCode: 10012}` is reported
as placed on both endpoints, including when only the capitalized
`ReturnCode` field is present. -/
theorem C5_return_code_10012_witness :
    httpOk 400 = false ∧
    extractedReturnCode ⟨some 10012, none⟩ = some 10012 ∧
    marketOrderResult 400 (some ⟨some 10012, none⟩) = .placedQuirk ∧
    pendingOrderResult 400 (some ⟨some 10012, none⟩) = .placedQuirk ∧
    marketOrderResult 400 (some ⟨none, some 10012⟩) = .placedQuirk := by
  have h1 := C5_return_code_10012 400 ⟨some 10012, none⟩ (by decide) (by decide)
  have h2 := C5_return_code_10012 400 ⟨none, some 10012⟩ (by decide) (by decide)
  exact ⟨by decide, by decide, h1.1, h1.2, h2.1⟩

/-- C6 counterexample: the claim says a modify request first goes to
`POST {base}/client/position/modify` and on failure exactly one fallback,
`PUT {base}/Trading/position/modify`, is attempted.  On a failing upstream
response (HTTP 500) the code performs exactly one attempt, a `PUT` to
`{base}/client/Orders/ModifyPendingOrder`; neither endpoint the claim
names is ever contacted. -/
theorem C6_counterexample :
    (modifyPendingOrder "https://metaapi.zuperior.com/api"
        ⟨5, none, none, none, none⟩ (.resp 500 (none : Option CloseBody))).2 =
      [⟨"PUT", "https://metaapi.zuperior.com/api/client/Orders/ModifyPendingOrder"⟩] ∧
    (⟨"POST", "https://metaapi.zuperior.com/api/client/position/modify"⟩ : HttpAttempt) ∉
      (modifyPendingOrder "https://metaapi.zuperior.com/api"
        ⟨5, none, none, none, none⟩ (.resp 500 (none : Option CloseBody))).2 ∧
    (⟨"PUT", "https://metaapi.zuperior.com/api/Trading/position/modify"⟩ : HttpAttempt) ∉
      (modifyPendingOrder "https://metaapi.zuperior.com/api"
        ⟨5, none, none, none, none⟩ (.resp 500 (none : Option CloseBody))).2 := by
  refine ⟨rfl, ?_, ?_⟩ <;> decide

/-- C6 amended: a pending-order modify request is sent exactly once, as
`PUT {base}/client/Orders/ModifyPendingOrder` with capitalized payload
field names; no fallback request exists (the attempt list is the same
whatever the outcome), and the single response decides the reported
result — success exactly when the HTTP status is 2xx. -/
theorem C6_modify_single_attempt {β : Type} (base : String) (p : ModifyPayload)
    (o o' : FetchOutcome β) :
    (modifyPendingOrder base p o).2 =
      [⟨"PUT", base ++ "/client/Orders/ModifyPendingOrder"⟩] ∧
    (modifyPendingOrder base p o).2 = (modifyPendingOrder base p o').2 ∧
    ((modifyPendingOrder base p o).1 = true ↔
      ∃ s b, o = .resp s b ∧ httpOk s = true) := by
  refine ⟨rfl, rfl, ?_⟩
  cases o with
  | rejected m => simp [modifyPendingOrder]
  | resp s b =>
    simp only [modifyPendingOrder]
    constructor
    · intro h
      exact ⟨s, b, rfl, h⟩
    · rintro ⟨s2, b2, heq, hok⟩
      cases heq
      exact hok

/-- C7 counterexample: the claim says a JSON body asserting
`success: false` overrides an ostensibly-ok HTTP status.  The close code's
acceptance check reads only `response.ok || status === 204`: an HTTP 200
response whose body carries `success: false` is still accepted. -/
theorem C7_counterexample :
    closeAccepted (.resp 200 (some ⟨some false, none⟩)) = true ∧
    closeAcceptedSpec (.resp 200 (some ⟨some false, none⟩)) = false ∧
    closeSingle "https://metaapi.zuperior.com/api" 9 none
        (.resp 200 (some ⟨some false, none⟩)) (.resp 200 none) =
      (true, [⟨"DELETE", "https://metaapi.zuperior.com/api/client/position/9"⟩]) := by
  refine ⟨by decide, by decide, by decide⟩

/-- C7 amended: at every step of the close-position chain an attempt is
accepted exactly when the HTTP response is ok or status 204; the response
body is never consulted, so the whole chain's behaviour is a function of
the HTTP statuses alone. -/
theorem C7_acceptance_ignores_body (s s2 : ℕ) (b b' b2 b2' : Option CloseBody)
    (msg base : String) (pid : ℕ) (vol : Option ℚ) :
    closeAccepted (.resp s b) = (httpOk s || s == 204) ∧
    closeAccepted (.resp s b) = closeAccepted (.resp s b') ∧
    closeAccepted (.rejected msg) = false ∧
    closeSingle base pid vol (.resp s b) (.resp s2 b2) =
      closeSingle base pid vol (.resp s b') (.resp s2 b2') := by
  refine ⟨rfl, rfl, rfl, ?_⟩
  simp [closeSingle]

/-- C2 counterexample: the claim puts every status ≥ 400 in the retryable
class and promises a second fallback to `POST {base}/Trading/position/close`.
A primary `DELETE` answered with HTTP 400 triggers no fallback at all (one
attempt, error returned), and even a failing Fallback1 after a 405 is
followed by no `Trading` attempt — that endpoint is never contacted. -/
theorem C2_counterexample :
    closeSingle "https://metaapi.zuperior.com/api" 7 none
        (.resp 400 none) (.resp 200 none) =
      (false, [⟨"DELETE", "https://metaapi.zuperior.com/api/client/position/7"⟩]) ∧
    (⟨"POST", "https://metaapi.zuperior.com/api/client/position/close"⟩ : HttpAttempt) ∉
      (closeSingle "https://metaapi.zuperior.com/api" 7 none
        (.resp 400 none) (.resp 200 none)).2 ∧
    (closeSingle "https://metaapi.zuperior.com/api" 7 none
        (.resp 405 none) (.resp 500 none)).2 =
      [⟨"DELETE", "https://metaapi.zuperior.com/api/client/position/7"⟩,
       ⟨"POST", "https://metaapi.zuperior.com/api/client/position/close"⟩] ∧
    (⟨"POST", "https://metaapi.zuperior.com/api/Trading/position/close"⟩ : HttpAttempt) ∉
      (closeSingle "https://metaapi.zuperior.com/api" 7 none
        (.resp 405 none) (.resp 500 none)).2 := by
  refine ⟨by decide, by decide, by decide, by decide⟩

/-- C2 amended: the primary attempt is `DELETE {base}/client/position/{id}`;
only primary statuses 405 and 415 trigger the single fallback,
`POST {base}/client/position/close` with lower-camel payload
`{positionId, volume?}`; there is no second fallback (the attempt list is
always the primary alone or primary-then-fallback); a primary HTTP 200 ends
the chain accepted after one attempt, and the reported success is primary
accepted, or primary retryable and fallback accepted. -/
theorem C2_close_fallback_chain (base : String) (pid : ℕ) (vol : Option ℚ)
    (primary fb1 : FetchOutcome (Option CloseBody)) (b200 : Option CloseBody) :
    ((closeSingle base pid vol primary fb1).2 =
        [⟨"DELETE", base ++ "/client/position/" ++ Nat.repr pid⟩] ∨
      (closeSingle base pid vol primary fb1).2 =
        [⟨"DELETE", base ++ "/client/position/" ++ Nat.repr pid⟩,
         ⟨"POST", base ++ "/client/position/close"⟩]) ∧
    ((closeSingle base pid vol primary fb1).2 =
        [⟨"DELETE", base ++ "/client/position/" ++ Nat.repr pid⟩,
         ⟨"POST", base ++ "/client/position/close"⟩] ↔
      primaryRetryable primary = true) ∧
    closeSingle base pid vol (.resp 200 b200) fb1 =
      (true, [⟨"DELETE", base ++ "/client/position/" ++ Nat.repr pid⟩]) ∧
    (closeSingle base pid vol primary fb1).1 =
      (closeAccepted primary || (primaryRetryable primary && closeAccepted fb1)) ∧
    (closeFb1Payload pid vol).head? = some ("positionId", (pid : ℚ)) := by
  have hsplit :
      (closeSingle base pid vol primary fb1).2 =
          [⟨"DELETE", base ++ "/client/position/" ++ Nat.repr pid⟩] ∨
        (closeSingle base pid vol primary fb1).2 =
          [⟨"DELETE", base ++ "/client/position/" ++ Nat.repr pid⟩,
           ⟨"POST", base ++ "/client/position/close"⟩] := by
    cases primary with
    | rejected m => left; rfl
    | resp s b =>
      by_cases hacc : (httpOk s || s == 204) = true
      · left; simp [closeSingle, hacc]
      · by_cases hretry : (s == 415 || s == 405) = true
        · right
          cases fb1 with
          | rejected m2 => simp [closeSingle, hacc, hretry]
          | resp s2 b2 =>
            by_cases hacc2 : (httpOk s2 || s2 == 204) = true
            · simp [closeSingle, hacc, hretry, hacc2]
            · simp [closeSingle, hacc, hretry, hacc2]
        · left; simp [closeSingle, hacc, hretry]
  refine ⟨hsplit, ?_, ?_, ?_, rfl⟩
  · constructor
    · intro h2
      cases primary with
      | rejected m => simp [closeSingle] at h2
      | resp s b =>
        by_cases hacc : (httpOk s || s == 204) = true
        · simp [closeSingle, hacc] at h2
        · by_cases hretry : (s == 415 || s == 405) = true
          · simpa [primaryRetryable] using hretry
          · simp [closeSingle, hacc, hretry] at h2
    · intro hretry
      cases primary with
      | rejected m => simp [primaryRetryable] at hretry
      | resp s b =>
        have hretry' : (s == 415 || s == 405) = true := by
          simpa [primaryRetryable] using hretry
        have hacc : (httpOk s || s == 204) = false := by
          rcases Bool.or_eq_true _ _ |>.mp hretry' with h | h
          · have : s = 415 := by simpa using h
            subst this; decide
          · have : s = 405 := by simpa using h
            subst this; decide
        cases fb1 with
        | rejected m2 => simp [closeSingle, hacc, hretry']
        | resp s2 b2 =>
          by_cases hacc2 : (httpOk s2 || s2 == 204) = true
          · simp [closeSingle, hacc, hretry', hacc2]
          · simp [closeSingle, hacc, hretry', hacc2]
  · simp [closeSingle, httpOk]
  · cases primary with
    | rejected m => simp [closeSingle, closeAccepted, primaryRetryable]
    | resp s b =>
      by_cases hacc : (httpOk s || s == 204) = true
      · simp [closeSingle, closeAccepted, hacc]
      · by_cases hretry : (s == 415 || s == 405) = true
        · cases fb1 with
          | rejected m2 =>
            simp [closeSingle, closeAccepted, primaryRetryable, hacc, hretry]
          | resp s2 b2 =>
            by_cases hacc2 : (httpOk s2 || s2 == 204) = true
            · simp [closeSingle, closeAccepted, primaryRetryable, hacc, hretry, hacc2]
            · simp [closeSingle, closeAccepted, primaryRetryable, hacc, hretry, hacc2]
        · simp [closeSingle, closeAccepted, primaryRetryable, hacc, hretry]

/-- Witness for the amended C2 at a concrete input: a primary 405 is
followed by exactly the one `POST {base}/client/position/close` fallback,
and an accepted fallback makes the whole chain accepted. -/
theorem C2_close_fallback_chain_witness :
    (closeSingle "https://metaapi.zuperior.com/api" 3 none
        (.resp 405 none) (.resp 200 none)).2 =
      [⟨"DELETE", "https://metaapi.zuperior.com/api/client/position/" ++ Nat.repr 3⟩,
       ⟨"POST", "https://metaapi.zuperior.com/api/client/position/close"⟩] ∧
    (closeSingle "https://metaapi.zuperior.com/api" 3 none
        (.resp 405 none) (.resp 200 none)).1 = true := by
  have h := C2_close_fallback_chain "https://metaapi.zuperior.com/api" 3 none
    (.resp 405 none) (.resp 200 none) none
  refine ⟨h.2.1.mpr (by decide), ?_⟩
  rw [h.2.2.2.1]
  decide

/-- Witness for the amended C6: an HTTP 200 on the single
`PUT .../client/Orders/ModifyPendingOrder` attempt reports success. -/
theorem C6_modify_single_attempt_witness :
    (modifyPendingOrder "https://metaapi.zuperior.com/api"
        ⟨1, none, none, none, none⟩ (.resp 200 (none : Option CloseBody))).1 = true ∧
    (modifyPendingOrder "https://metaapi.zuperior.com/api"
        ⟨1, none, none, none, none⟩ (.resp 200 (none : Option CloseBody))).2 =
      [⟨"PUT", "https://metaapi.zuperior.com/api/client/Orders/ModifyPendingOrder"⟩] := by
  have h := C6_modify_single_attempt "https://metaapi.zuperior.com/api"
    ⟨1, none, none, none, none⟩ (.resp 200 (none : Option CloseBody))
    (.resp 200 (none : Option CloseBody))
  exact ⟨h.2.2.mpr ⟨200, none, rfl, by decide⟩, h.1⟩

/-- Witness for the amended C7: a 204 is accepted whatever failure flags
its body carries, and swapping bodies on both chain steps leaves the
chain's behaviour unchanged. -/
theorem C7_acceptance_ignores_body_witness :
    closeAccepted (.resp 204 (some ⟨some false, some false⟩)) = true ∧
    closeSingle "https://metaapi.zuperior.com/api" 4 none
        (.resp 200 (some ⟨some false, none⟩)) (.resp 500 none) =
      closeSingle "https://metaapi.zuperior.com/api" 4 none
        (.resp 200 none) (.resp 500 (some ⟨none, some false⟩)) := by
  have h1 := C7_acceptance_ignores_body 204 0 (some ⟨some false, some false⟩)
    none none none "" "" 0 none
  have h2 := C7_acceptance_ignores_body 200 500 (some ⟨some false, none⟩)
    none none (some ⟨none, some false⟩) "" "https://metaapi.zuperior.com/api" 4 none
  refine ⟨?_, h2.2.2.2⟩
  rw [h1.1]
  decide

/-- C3 counterexample: the claim says a record whose order identifier
fails to resolve (> 0) falls back to the deal identifier, so that
`orderId = 0, dealId = 5` with all other fields valid is included.  The
code resolves `OrderId ?? orderId ?? DealId ?? dealId` with nullish
coalescing: a present `orderId = 0` stops the chain, the resolved
identifier is 0, and the record is excluded — the spec-worded predicate
accepts it, the code's filter drops it. -/
theorem C3_counterexample :
    closedTradeValid
      { TradeRec.empty with
          orderId := some 0
          dealId := some 5
          Symbol := some "EURUSD"
          Price := some 2
          Volume := some 1
          Profit := some 5 } = false ∧
    closedTradeValidSpec
      { TradeRec.empty with
          orderId := some 0
          dealId := some 5
          Symbol := some "EURUSD"
          Price := some 2
          Volume := some 1
          Profit := some 5 } = true ∧
    closedPositionsFull (.arr
      [{ TradeRec.empty with
          orderId := some 0
          dealId := some 5
          Symbol := some "EURUSD"
          Price := some 2
          Volume := some 1
          Profit := some 5 }]) = [] := by
  refine ⟨by decide, by decide, by decide⟩

/-- C3 amended: a raw trade record is included in `closedPositions` iff
the nullish-resolved identifier chain `OrderId ?? orderId ?? DealId ??
dealId` yields a value > 0, the symbol resolves to a non-empty string
after trimming, a price resolved across the fallback price fields is > 0,
a resolved volume is > 0, and the resolved profit is non-zero.  The deal
identifier is consulted only when both order-identifier fields are absent
— a record with a present `orderId = 0` is excluded regardless of its
deal identifier; records with zero profit or an empty symbol are
excluded. -/
theorem C3_closed_trade_filter (t : TradeRec) (b : TradeHistoryBody) :
    (closedTradeValid t = true ↔
      (0 < tradeIdResolved t ∧ tradeSymbolResolved t ≠ "" ∧
       0 < tradePriceResolved t ∧ 0 < tradeVolumeResolved t ∧
       tradeProfitResolved t ≠ 0)) ∧
    (t.OrderId = none → t.orderId = none →
      tradeIdResolved t = (nullishOr t.DealId t.dealId).getD 0) ∧
    (t.OrderId = none → t.orderId = some 0 → tradeIdResolved t = 0) ∧
    (tradeProfitResolved t = 0 → closedTradeValid t = false) ∧
    (tradeSymbolResolved t = "" → closedTradeValid t = false) ∧
    closedPositionsFull b = (unwrapTrades b).filter closedTradeValid := by
  refine ⟨?_, ?_, ?_, ?_, ?_, rfl⟩
  · simp [closedTradeValid, and_assoc]
  · intro h1 h2
    simp [tradeIdResolved, nullishOr, h1, h2]
  · intro h1 h2
    simp [tradeIdResolved, nullishOr, h1, h2]
  · intro h
    simp [closedTradeValid, h]
  · intro h
    simp [closedTradeValid, h]

/-- Witness for C3 at concrete records: a fully valid record (order id 5)
is kept; a record with `dealId = 5` and both order-identifier fields
absent is kept; setting `orderId = 0` zeroes the resolved identifier;
zero profit or an empty symbol excludes an otherwise valid record. -/
theorem C3_closed_trade_filter_witness :
    closedTradeValid
      { TradeRec.empty with
          orderId := some 5
          Symbol := some "EURUSD"
          Price := some 2
          Volume := some 1
          Profit := some 5 } = true ∧
    closedTradeValid
      { TradeRec.empty with
          dealId := some 5
          Symbol := some "EURUSD"
          Price := some 2
          Volume := some 1
          Profit := some 5 } = true ∧
    tradeIdResolved
      { TradeRec.empty with
          orderId := some 0
          dealId := some 5 } = 0 ∧
    closedTradeValid
      { TradeRec.empty with
          orderId := some 5
          Symbol := some "EURUSD"
          Price := some 2
          Volume := some 1
          Profit := some 0 } = false ∧
    closedTradeValid
      { TradeRec.empty with
          orderId := some 5
          Symbol := some "   "
          Price := some 2
          Volume := some 1
          Profit := some 5 } = false := by
  have h1 := C3_closed_trade_filter
    { TradeRec.empty with
        orderId := some 5
        Symbol := some "EURUSD"
        Price := some 2
        Volume := some 1
        Profit := some 5 } (.arr [])
  have h2 := C3_closed_trade_filter
    { TradeRec.empty with
        orderId := some 0
        dealId := some 5 } (.arr [])
  have h3 := C3_closed_trade_filter
    { TradeRec.empty with
        orderId := some 5
        Symbol := some "EURUSD"
        Price := some 2
        Volume := some 1
        Profit := some 0 } (.arr [])
  have h4 := C3_closed_trade_filter
    { TradeRec.empty with
        orderId := some 5
        Symbol := some "   "
        Price := some 2
        Volume := some 1
        Profit := some 5 } (.arr [])
  refine ⟨?_, by decide, h2.2.2.1 rfl rfl, h3.2.2.2.1 (by decide), h4.2.2.2.2.1 (by decide)⟩
  exact h1.1.mpr ⟨by decide, by decide, by decide, by decide, by decide⟩

/-- C8: close-all runs one close per listed position and replies HTTP 200
with `success: true` and aggregate `{closed, failed, total}` where `total`
is the number of listed positions and `closed + failed = total`; a
position record with no identifiable position-id field resolves to a
failure with the explicit `'No position ID'` reason rather than being
skipped. -/
theorem C8_close_all (positions : List PosRec) (env : ℕ → CloseAllEnv)
    (p : PosRec) (e : CloseAllEnv) (hne : positions ≠ []) :
    (closeAll positions env).httpStatus = 200 ∧
    (closeAll positions env).success = true ∧
    (closeAll positions env).total = some positions.length ∧
    (closeAll positions env).closed + (closeAll positions env).failed =
      positions.length ∧
    (positionIdFalsy (extractPositionId p) = true →
      closeOne p e = ⟨false, none, some "No position ID"⟩) := by
  have hne' : positions.isEmpty = false := by
    cases positions with
    | nil => exact absurd rfl hne
    | cons a l => rfl
  have hlen :
      (positions.enum.map (fun pe => closeOne pe.2 (env pe.1))).length =
        positions.length := by
    simp [List.length_map, List.enum_length]
  have hcle :
      (positions.enum.map (fun pe => closeOne pe.2 (env pe.1))).countP
          (fun r => r.success) ≤ positions.length := by
    calc (positions.enum.map (fun pe => closeOne pe.2 (env pe.1))).countP
          (fun r => r.success)
        ≤ (positions.enum.map (fun pe => closeOne pe.2 (env pe.1))).length :=
          List.countP_le_length _
      _ = positions.length := hlen
  refine ⟨?_, ?_, ?_, ?_, ?_⟩
  · simp [closeAll, hne']
  · simp [closeAll, hne']
  · simp [closeAll, hne']
  · simp only [closeAll, hne', Bool.false_eq_true, if_false, hlen]
    omega
  · intro h
    simp [closeOne, h]

/-- Witness for C8, the spec's scenario: three listed positions where two
close on the primary `DELETE` and one throws a network error yield
`{closed: 2, failed: 1, total: 3}` under HTTP 200 / `success: true`, and
a record with only a zero `id` field fails with `'No position ID'`. -/
theorem C8_close_all_witness :
    closeAll
        [⟨some 11, none, none, none⟩, ⟨some 12, none, none, none⟩,
         ⟨some 13, none, none, none⟩]
        (fun i => if i == 2 then ⟨.rejected "network error", .rejected "network error"⟩
                  else ⟨.resp 200 "", .resp 200 ""⟩) =
      ⟨200, true, 2, 1, some 3⟩ ∧
    closeOne ⟨none, none, none, some 0⟩ ⟨.resp 200 "", .resp 200 ""⟩ =
      ⟨false, none, some "No position ID"⟩ := by
  have h := C8_close_all
    [⟨some 11, none, none, none⟩, ⟨some 12, none, none, none⟩,
     ⟨some 13, none, none, none⟩]
    (fun i => if i == 2 then ⟨.rejected "network error", .rejected "network error"⟩
              else ⟨.resp 200 "", .resp 200 ""⟩)
    ⟨none, none, none, some 0⟩ ⟨.resp 200 "", .resp 200 ""⟩
    (by decide)
  exact ⟨by decide, h.2.2.2.2 (by decide)⟩

/-- C9: the three listing fetches are settled together and each category
is computed from its own fetch outcome alone; a rejected or error-status
closed-trade fetch yields `closedPositions = []` while the other two
categories and the overall `success: true` / HTTP 200 reply are
unaffected. -/
theorem C9_listing_isolation {α : Type}
    (posRes posRes' : FetchOutcome (PositionsEnvelope α))
    (pendRes pendRes' : FetchOutcome (OrdersEnvelope α))
    (closedRes closedRes' : FetchOutcome TradeHistoryBody)
    (flag : Bool) (msg : String) (s : ℕ) (b : TradeHistoryBody) :
    listingResult posRes pendRes (.rejected msg) flag =
      { httpStatus := 200
        success := true
        positions := processCategory posRes unwrapPositions
        pendingOrders := processCategory pendRes unwrapOrders
        closedPositions := [] } ∧
    (httpOk s = false →
      (listingResult posRes pendRes (.resp s b) flag).closedPositions = []) ∧
    (listingResult posRes pendRes closedRes flag).positions =
      (listingResult posRes pendRes' closedRes' flag).positions ∧
    (listingResult posRes pendRes closedRes flag).pendingOrders =
      (listingResult posRes' pendRes closedRes' flag).pendingOrders ∧
    (listingResult posRes pendRes closedRes flag).closedPositions =
      (listingResult posRes' pendRes' closedRes flag).closedPositions ∧
    (listingResult posRes pendRes closedRes flag).success = true ∧
    (listingResult posRes pendRes closedRes flag).httpStatus = 200 := by
  refine ⟨rfl, ?_, rfl, rfl, rfl, rfl, rfl⟩
  intro h
  simp [listingResult, processCategory, h]

/-- Witness for C9: with a populated positions envelope, a populated
pending-orders envelope and a closed-trade fetch that failed with HTTP
500, the reply still carries both populated arrays, an empty
`closedPositions`, and `success: true`. -/
theorem C9_listing_isolation_witness :
    listingResult (α := ℕ)
        (.resp 200 ⟨some [71, 72], none, none, none⟩)
        (.resp 200 ⟨some [81], none, none, none⟩)
        (.resp 500 (.arr [])) true =
      { httpStatus := 200
        success := true
        positions := [71, 72]
        pendingOrders := [81]
        closedPositions := [] } := by
  have h := C9_listing_isolation (α := ℕ)
    (.resp 200 ⟨some [71, 72], none, none, none⟩)
    (.resp 200 ⟨some [71, 72], none, none, none⟩)
    (.resp 200 ⟨some [81], none, none, none⟩)
    (.resp 200 ⟨some [81], none, none, none⟩)
    (.resp 500 (.arr [])) (.resp 500 (.arr []))
    true "" 500 (.arr [])
  have hclosed := h.2.1 (by decide)
  have : (listingResult (α := ℕ)
      (.resp 200 ⟨some [71, 72], none, none, none⟩)
      (.resp 200 ⟨some [81], none, none, none⟩)
      (.resp 500 (.arr [])) true).closedPositions = [] := hclosed
  exact ListingResponse.ext rfl rfl rfl rfl this

end ZupGateway
